import Mathlib

/-!
# Verification of the photo-watermaker compositing and export engine

Shallow embedding of the watermark configuration model, the resize stage,
the placement arithmetic, the output-naming rules, the template
(de)serialization and the batch export pipelines of the repository.

The repository contains two sibling implementations of the tool:
`src/week_2/studio.py` (classes `WatermarkConfig`, `MainWindow.export_all`,
`MainWindow._apply_resize`, ...) and `src/week_2/studio_app.py`
(`WatermarkSettings`, `MainWindow.on_export`, `MainWindow.compose_image`,
...).  Both are embedded here; definitions carry the source names where
Lean permits them (the Python field `prefix` is a reserved token here and is
embedded as `prefix_str`; `name_prefix` likewise as `name_prefix_str`).

Conventions of the embedding:
* Python floats are modelled exactly as rationals; every arithmetic
  expression is transcribed operator by operator from the source.
* `int(...)` in Python truncates toward zero, modelled by `pyTrunc`.
* Qt's `qRound` rounds half away from zero; all uses here are on
  non-negative quantities, where it is `⌊q + 1/2⌋`.
* Filesystem directories and files are lists of path components; paths
  compared by the code after `resolve()` are stored already resolved.
* Pixel rasters are modelled by their geometry (`Image` keeps width and
  height); painting operations never change geometry, which is all the
  stated claims depend on.
* Font metrics, image decoding and Qt's rotation of a raster are external
  capabilities of the Qt runtime; they are parameters of the model
  (structure `Env`), never inspected by the code being verified.
-/

namespace Watermaker

/-- Python `int(x)`: truncation toward zero. -/
def pyTrunc (q : ℚ) : ℤ :=
  if 0 ≤ q then ⌊q⌋ else -⌊-q⌋

/-- Truncation toward zero, clamped into ℕ (used where the source stores the
result in a width/height that is non-negative in every reachable state). -/
def pyTruncNat (q : ℚ) : ℕ :=
  (pyTrunc q).toNat

/-- Qt `qRound` on the non-negative quantities it is applied to here. -/
def qRound (q : ℚ) : ℤ :=
  ⌊q + 1/2⌋

/-- The spec wording "rounded to the nearest integer pixel", written from the
spec (round half up), to compare against what the code computes. -/
def specRoundNearest (q : ℚ) : ℤ :=
  ⌊q + 1/2⌋

/-- A resolved filesystem path, as a list of components. -/
abbrev DirPath := List String

/-- A raster, by its geometry.  Pixel contents never influence the control
flow or the geometry in any claim. -/
structure Image where
  width : ℕ
  height : ℕ
deriving DecidableEq, Repr

/-- The filesystem state the export pipelines act on: directories that
exist and image files that have been written. -/
structure FS where
  dirs : List DirPath
  files : List DirPath
deriving DecidableEq, Repr

/-- All non-empty prefixes of a path: the directory and its parents. -/
def prefixesOf (d : DirPath) : List DirPath :=
  (List.range d.length).map (fun i => d.take (i + 1))

/-- `Path.mkdir(parents=True, exist_ok=True)`: create the directory and any
missing parent. -/
def mkdirParents (fs : FS) (d : DirPath) : FS :=
  { fs with dirs := fs.dirs ++ (prefixesOf d).filter (fun p => decide (p ∉ fs.dirs)) }

/-- Index of the last `.` in a list of characters, if any. -/
def lastDotIdx : List Char → Option ℕ
  | [] => none
  | c :: rest =>
      match lastDotIdx rest with
      | some i => some (i + 1)
      | none => if c = '.' then some 0 else none

/-- Length of the `pathlib` suffix of a file name: from the last dot `i`
when `0 < i < len - 1`, else empty. -/
def pathSuffixLen (name : String) : ℕ :=
  let cs := name.toList
  match lastDotIdx cs with
  | some i => if 0 < i ∧ i + 1 < cs.length then cs.length - i else 0
  | none => 0

/-- `pathlib.PurePath.with_suffix` on a single file name: drop the current
suffix (if any) and append the new one. -/
def withSuffix (name : String) (suf : String) : String :=
  String.mk (name.toList.take (name.toList.length - pathSuffixLen name)) ++ suf

/-- Python `str.strip()`: drop whitespace from both ends. -/
def pyStrip (s : String) : String :=
  String.mk (((s.toList.dropWhile Char.isWhitespace).reverse.dropWhile
    Char.isWhitespace).reverse)

/-- Python `str.upper()` on the ASCII format names it is applied to. -/
def pyUpper (s : String) : String :=
  String.mk (s.toList.map Char.toUpper)

/-- Qt `QImage::scaledToWidth(w, mode)`: aspect-preserving scale to width
`w`; a null image or `w ≤ 0` yields the null image. -/
def scaledToWidth (img : Image) (w : ℤ) : Image :=
  if img.width = 0 ∨ img.height = 0 ∨ w ≤ 0 then ⟨0, 0⟩
  else ⟨w.toNat, (qRound ((img.height : ℚ) * (w : ℚ) / (img.width : ℚ))).toNat⟩

/-- Qt `QImage::scaledToHeight(h, mode)`. -/
def scaledToHeight (img : Image) (h : ℤ) : Image :=
  if img.width = 0 ∨ img.height = 0 ∨ h ≤ 0 then ⟨0, 0⟩
  else ⟨(qRound ((img.width : ℚ) * (h : ℚ) / (img.height : ℚ))).toNat, h.toNat⟩

/-- Qt `QSize::scaled`/`QImage::scaled` with `KeepAspectRatio`: the largest
size fitting in the requested box with the aspect of the current size;
integer arithmetic with C++ truncating division on non-negative values. -/
def qtScaledKeepAspect (img : Image) (rw rh : ℕ) : Image :=
  if img.width = 0 ∨ img.height = 0 then ⟨rw, rh⟩
  else
    let t := rh * img.width / img.height
    if t ≤ rw then ⟨t, rh⟩ else ⟨rw, rw * img.height / img.width⟩

/-- Qt `QImage::scaled(w, h, aspectMode, smooth)` with the aspect mode the
caller selected. -/
def qtScaledMode (img : Image) (rw rh : ℤ) (keepAspect : Bool) : Image :=
  if keepAspect then qtScaledKeepAspect img rw.toNat rh.toNat
  else ⟨rw.toNat, rh.toNat⟩

/-! ## Configuration model of `studio.py` (typed view for the pipeline) -/

/-- `studio.py` dataclass `TextWatermark`. -/
structure TextWatermark where
  enabled : Bool := true
  text : String := "示例水印 Sample"
  font_family : String := "Arial"
  font_size_pt : ℤ := 36
  bold : Bool := false
  italic : Bool := false
  color_rgba : ℤ × ℤ × ℤ × ℤ := (255, 255, 255, 200)
  stroke_enabled : Bool := false
  stroke_color_rgba : ℤ × ℤ × ℤ × ℤ := (0, 0, 0, 180)
  stroke_width_px : ℤ := 2
  shadow_enabled : Bool := false
  shadow_offset_px : ℤ := 2
  shadow_alpha : ℤ := 120
deriving DecidableEq, Repr

/-- `studio.py` dataclass `ImageWatermark`. -/
structure ImageWatermark where
  enabled : Bool := false
  image_path : String := ""
  scale_percent : ℤ := 30
  opacity : ℤ := 70
deriving DecidableEq, Repr

/-- `studio.py` dataclass `LayoutStyle`. -/
structure LayoutStyle where
  pos_x : ℚ := 1/2
  pos_y : ℚ := 1/2
  rotation_deg : ℤ := 0
  margin_percent : ℚ := 2
deriving DecidableEq, Repr

/-- `studio.py` dataclass `ExportSettings`.  The Python fields `prefix` and
`suffix` are embedded as `prefix_str` and `suffix` (the former is a
reserved token of the verification language). -/
structure ExportSettings where
  output_dir : DirPath := ["~", "Pictures", "watermarked"]
  forbid_source_dir : Bool := true
  format : String := "PNG"
  jpeg_quality : ℤ := 90
  resize_mode : String := "None"
  resize_value : ℤ := 100
  naming_rule : String := "suffix"
  prefix_str : String := "wm_"
  suffix : String := "_watermarked"
deriving DecidableEq, Repr

/-- `studio.py` dataclass `WatermarkConfig` (typed view; the field `export`
is embedded as `export_cfg`, `export` being reserved). -/
structure WatermarkConfig where
  text : TextWatermark := {}
  image : ImageWatermark := {}
  layout : LayoutStyle := {}
  export_cfg : ExportSettings := {}
deriving DecidableEq, Repr

/-! ## Configuration model of `studio_app.py` (typed view for the pipeline) -/

/-- `studio_app.py` dataclass `WatermarkSettings` (typed view).  The Python
field `name_prefix` is embedded as `name_prefix_str` (reserved token). -/
structure WatermarkSettings where
  wm_type : String := "text"
  opacity : ℤ := 70
  rotation : ℚ := 0
  pos_rel : ℚ × ℚ := (1/2, 1/2)
  margin_rel : ℚ := 3/100
  text : String := "Sample Watermark"
  font_family : String := "Arial"
  font_point : ℤ := 36
  font_bold : Bool := false
  font_italic : Bool := false
  color_rgba : String := "#FFFFFFB3"
  shadow : Bool := true
  image_path : String := ""
  image_scale_pct : ℤ := 30
  out_dir : DirPath := []
  out_format : String := "PNG"
  jpeg_quality : ℤ := 90
  resize_mode : String := "none"
  resize_value : ℤ := 0
  name_mode : String := "original"
  name_prefix_str : String := "wm_"
  name_suffix : String := "_watermarked"
deriving DecidableEq, Repr

/-- External capabilities of the Qt runtime: whether a path exists on disk,
decoding an image file, font metrics for text layers, and the axis-aligned
bounding box of a rotated raster.  The pipelines only pass these through. -/
structure Env where
  path_exists : String → Bool
  decode : String → Option Image
  text_bbox_app : WatermarkSettings → ℕ × ℕ
  text_bbox : TextWatermark → ℚ × ℚ
  rotated : ℚ → Image → Image

/-! ## `studio.py` rendering and export pipeline -/

/-- `PreviewWidget._render_text_layer`: canvas `max(1, int(br.w) + 40)` by
`max(1, int(br.h) + 40)` around the measured glyph-path bounding rect. -/
def render_text_layer (env : Env) (tcfg : TextWatermark) : Image :=
  let br := env.text_bbox tcfg
  ⟨max 1 (pyTruncNat br.1 + 40), max 1 (pyTruncNat br.2 + 40)⟩

/-- `PreviewWidget._render_logo_layer`: `None` when the path does not exist
or fails to decode; otherwise scale to width
`max(1, int(view_w * max(1, scale_percent) / 100.0))`.  The opacity branch
repaints onto a canvas of the same size and does not change geometry. -/
def render_logo_layer (env : Env) (icfg : ImageWatermark) (view_w : ℕ) : Option Image :=
  if env.path_exists icfg.image_path = false then none
  else
    match env.decode icfg.image_path with
    | none => none
    | some src =>
        let target_w : ℤ := max 1 (pyTrunc ((view_w : ℚ) * ((max 1 icfg.scale_percent : ℤ) : ℚ) / 100))
        some (scaledToWidth src target_w)

/-- `PreviewWidget._render_watermark_layer`: collect the enabled text and
image layers, return `None` when both are absent, else a canvas of the
maximal width and height of the layers. -/
def render_watermark_layer (env : Env) (cfg : WatermarkConfig) (view_w _view_h : ℕ) :
    Option Image :=
  let text_layers : List Image :=
    if cfg.text.enabled = true ∧ pyStrip cfg.text.text ≠ "" then
      [render_text_layer env cfg.text]
    else []
  let image_layers : List Image :=
    if cfg.image.enabled = true ∧ cfg.image.image_path ≠ "" then
      match render_logo_layer env cfg.image view_w with
      | some l => [l]
      | none => []
    else []
  let layers := text_layers ++ image_layers
  if layers.isEmpty then none
  else some ⟨layers.foldl (fun m l => max m l.width) 0,
             layers.foldl (fun m l => max m l.height) 0⟩

/-- `MainWindow._apply_resize` of `studio.py`: `v = max(1, resize_value)`;
`Width` and `Height` scale unconditionally to the named dimension, `Percent`
scales both axes by `v/100` floored to at least 1 pixel. -/
def apply_resize (e : ExportSettings) (img : Image) : Image :=
  let v : ℤ := max 1 e.resize_value
  if e.resize_mode = "None" then img
  else if e.resize_mode = "Width" then scaledToWidth img v
  else if e.resize_mode = "Height" then scaledToHeight img v
  else if e.resize_mode = "Percent" then
    ⟨(max 1 (pyTrunc ((img.width : ℚ) * (v : ℚ) / 100))).toNat,
     (max 1 (pyTrunc ((img.height : ℚ) * (v : ℚ) / 100))).toNat⟩
  else img

/-- `MainWindow._composite_watermark` of `studio.py`: paint the rendered
layer (if any) onto a copy of the base; the copy has the base's
dimensions.  The painter translates by fractional amounts and never rounds
the draw offset to an integer pixel. -/
def composite_watermark (env : Env) (cfg : WatermarkConfig) (base : Image) : Image :=
  let _wm := render_watermark_layer env cfg base.width base.height
  base

/-! ## `studio_app.py` rendering and export pipeline -/

/-- `PreviewCanvas.build_text_watermark`: canvas `max(4, br.width + 16)` by
`max(4, br.height + 16)` around the font-metrics bounding rect of the
text. -/
def build_text_watermark (env : Env) (st : WatermarkSettings) : Image :=
  let br := env.text_bbox_app st
  ⟨max 4 (br.1 + 16), max 4 (br.2 + 16)⟩

/-- `scale_px = max(1, int(short_side * (image_scale_pct / 100.0)))` of
`PreviewCanvas.build_image_watermark`: the pixel size the watermark is
scaled to, from the base image's shorter side. -/
def wm_scale_px (st : WatermarkSettings) (base : Image) : ℕ :=
  max 1 (pyTruncNat (((min base.width base.height : ℕ) : ℚ) * ((st.image_scale_pct : ℚ) / 100)))

/-- The target size computed by `PreviewCanvas.build_image_watermark`:
`scale_px` applied to the watermark's longer dimension, the other dimension
following the watermark's aspect through float division and `int(...)`. -/
def wm_target_size (st : WatermarkSettings) (base wm : Image) : ℕ × ℕ :=
  let scale_px : ℕ := wm_scale_px st base
  let aspect : ℚ := (wm.width : ℚ) / (wm.height : ℚ)
  if wm.height ≤ wm.width then
    (scale_px, pyTruncNat ((scale_px : ℚ) / aspect))
  else
    (pyTruncNat ((scale_px : ℚ) * aspect), scale_px)

/-- `PreviewCanvas.build_image_watermark`: `None` when the configured path
is empty, absent or fails to decode; otherwise the watermark scaled to the
target size with `KeepAspectRatio`. -/
def build_image_watermark (env : Env) (st : WatermarkSettings) (base : Image) :
    Option Image :=
  if st.image_path = "" ∨ env.path_exists st.image_path = false then none
  else
    match env.decode st.image_path with
    | none => none
    | some wm =>
        let t := wm_target_size st base wm
        some (qtScaledKeepAspect wm t.1 t.2)

/-- `PreviewCanvas.build_watermark_pixmap`: text or image layer according to
`wm_type`, then the rotation transform when `abs(rotation) > 0.01`.  The
pixmap cache is cold on the fresh canvas `build_watermark_layer` creates
for each call, so it plays no role in the export pipeline. -/
def build_watermark_pixmap (env : Env) (st : WatermarkSettings) (base : Image) :
    Option Image :=
  let pix : Option Image :=
    if st.wm_type = "text" then some (build_text_watermark env st)
    else build_image_watermark env st base
  match pix with
  | none => none
  | some p => some (if 1/100 < |st.rotation| then env.rotated st.rotation p else p)

/-- The optional-resize block at the head of `MainWindow.compose_image` of
`studio_app.py`: width and height modes resize only when the requested
value is strictly below the current dimension, percent mode scales both
axes by `max(1, value)/100`. -/
def compose_resize (st : WatermarkSettings) (base : Image) : Image :=
  if st.resize_mode ≠ "none" ∧ 0 < st.resize_value then
    let w := base.width
    let h := base.height
    if st.resize_mode = "width" ∧ st.resize_value < (w : ℤ) then
      let new_w := st.resize_value
      let new_h := pyTrunc ((h : ℚ) * ((new_w : ℚ) / (w : ℚ)))
      qtScaledMode base new_w new_h (new_h ≠ 0)
    else if st.resize_mode = "height" ∧ st.resize_value < (h : ℤ) then
      let new_h := st.resize_value
      let new_w := pyTrunc ((w : ℚ) * ((new_h : ℚ) / (h : ℚ)))
      qtScaledMode base new_w new_h true
    else if st.resize_mode = "percent" then
      let scale : ℚ := ((max 1 st.resize_value : ℤ) : ℚ) / 100
      qtScaledMode base (pyTrunc ((w : ℚ) * scale)) (pyTrunc ((h : ℚ) * scale)) true
    else base
  else base

/-- The draw position computed in `MainWindow.compose_image` (and in
`PreviewCanvas.wm_rect_on_scaled`): `x = int(cx - wm.width / 2)`,
`y = int(cy - wm.height / 2)` with `(cx, cy) = pos_rel * base size` —
Python `int(...)`, i.e. truncation, not rounding. -/
def draw_offset (st : WatermarkSettings) (base wm : Image) : ℤ × ℤ :=
  let cx : ℚ := st.pos_rel.1 * (base.width : ℚ)
  let cy : ℚ := st.pos_rel.2 * (base.height : ℚ)
  (pyTrunc (cx - (wm.width : ℚ) / 2), pyTrunc (cy - (wm.height : ℚ) / 2))

/-- `MainWindow.compose_image` of `studio_app.py`: optional resize, then
paint the watermark (if one is built) at `draw_offset` onto a canvas of the
resized base's size. -/
def compose_image (env : Env) (st : WatermarkSettings) (src : Image) : Image :=
  let base := compose_resize st src
  match build_watermark_pixmap env st base with
  | none => base
  | some wm =>
      let _off := draw_offset st base wm
      base

/-- `MainWindow.compute_out_name` of `studio_app.py`: naming rule applied to
the source stem, then the extension of the chosen output format. -/
def compute_out_name (stem : String) (st : WatermarkSettings) (fmt : String) : String :=
  let stem2 :=
    if st.name_mode = "prefix" then st.name_prefix_str ++ stem
    else if st.name_mode = "suffix" then stem ++ st.name_suffix
    else stem
  let ext := if pyUpper fmt = "PNG" then ".png" else ".jpg"
  stem2 ++ ext

/-- The source file of a batch item in `studio_app.py`: resolved parent
directory, stem, display name, decode result, and whether `save_qimage`
succeeds for it. -/
structure SourceItem where
  dir : DirPath
  stem : String
  name : String
  decoded : Option Image
  save_ok : Bool
deriving DecidableEq, Repr

/-- Outcome of `MainWindow.on_export` of `studio_app.py`: one constructor
per early-return message box, and `finished` with the recorded error
strings. -/
inductive ExportStatus where
  | noImages
  | noOutDir
  | dirConflict
  | emptyText
  | missingWatermarkImage
  | finished (errors : List String)
deriving DecidableEq, Repr

/-- One iteration of the export loop of `on_export`: a decode failure or a
save failure appends the item's error string, a success writes the
destination file. -/
def export_item_step (env : Env) (st : WatermarkSettings) (fmt : String)
    (acc : FS × List String) (it : SourceItem) : FS × List String :=
  match it.decoded with
  | none => (acc.1, acc.2 ++ [it.name ++ ": 无法读取图片"])
  | some img =>
      let _out := compose_image env st img
      let nm := compute_out_name it.stem st fmt
      if it.save_ok then
        ({ acc.1 with files := acc.1.files ++ [st.out_dir ++ [nm]] }, acc.2)
      else (acc.1, acc.2 ++ [it.name ++ ": 保存失败"])

/-- `MainWindow.on_export` of `studio_app.py`: validations in source order
(non-empty list, non-empty output directory), creation of the output
directory with parents, then the batch preconditions (no source-directory
conflict, non-blank text for a text watermark, existing file for an image
watermark), then the sequential per-item loop.  The cancel button is
modelled as never pressed. -/
def on_export (env : Env) (fs : FS) (st : WatermarkSettings) (items : List SourceItem) :
    FS × ExportStatus :=
  if items.isEmpty then (fs, .noImages)
  else if st.out_dir.isEmpty then (fs, .noOutDir)
  else
    let fs1 := mkdirParents fs st.out_dir
    if items.any (fun it => decide (it.dir = st.out_dir)) then (fs1, .dirConflict)
    else if st.wm_type = "text" ∧ pyStrip st.text = "" then (fs1, .emptyText)
    else if st.wm_type = "image" ∧ env.path_exists st.image_path = false then
      (fs1, .missingWatermarkImage)
    else
      let fmt := pyUpper st.out_format
      let r := items.foldl (export_item_step env st fmt) (fs1, [])
      (r.1, .finished r.2)

/-- Whether an item of the batch fails (its decode or its save). -/
def itemFails (it : SourceItem) : Bool :=
  it.decoded.isNone || !it.save_ok

/-- The error string `on_export` records for a failing item, `none` for a
successful one. -/
def failureMsg (it : SourceItem) : Option String :=
  match it.decoded with
  | none => some (it.name ++ ": 无法读取图片")
  | some _ => if it.save_ok then none else some (it.name ++ ": 保存失败")

/-- The destination path `on_export` writes for a successful item, `none`
for a failing one. -/
def successDest (st : WatermarkSettings) (fmt : String) (it : SourceItem) :
    Option DirPath :=
  match it.decoded with
  | none => none
  | some _ =>
      if it.save_ok then some (st.out_dir ++ [compute_out_name it.stem st fmt])
      else none

/-! ## Serialization model

Python values as they appear in the two configuration documents.  The
tuples occurring there have arity 4 (RGBA colors) and arity 2 (`pos_rel`),
so the embedding carries exactly those shapes.  `json.dumps` writes a tuple
as a JSON array and `json.loads` reads an array back as a Python list
(`jsonWire`); Python `==` distinguishes a list from a tuple with the same
elements, which structural equality of `PyVal` mirrors. -/

inductive PyVal where
  | pybool (b : Bool)
  | pyint (n : ℤ)
  | pyrat (q : ℚ)
  | pystr (s : String)
  | tuple2 (a b : PyVal)
  | list2 (a b : PyVal)
  | tuple4 (a b c d : PyVal)
  | list4 (a b c d : PyVal)
deriving DecidableEq, Repr

/-- The effect of `json.dumps` followed by `json.loads` on a value: tuples
become lists, everything else round-trips unchanged. -/
def jsonWire : PyVal → PyVal
  | .pybool b => .pybool b
  | .pyint n => .pyint n
  | .pyrat q => .pyrat q
  | .pystr s => .pystr s
  | .tuple2 a b => .list2 (jsonWire a) (jsonWire b)
  | .list2 a b => .list2 (jsonWire a) (jsonWire b)
  | .tuple4 a b c d => .list4 (jsonWire a) (jsonWire b) (jsonWire c) (jsonWire d)
  | .list4 a b c d => .list4 (jsonWire a) (jsonWire b) (jsonWire c) (jsonWire d)

/-- One half (`0.5` in the Python sources), as a literal reduced fraction
so that structural comparison of stored values computes. -/
def ratHalf : ℚ := Rat.mk' 1 2

/-- `0.03`, as a literal reduced fraction. -/
def rat3Percent : ℚ := Rat.mk' 3 100

/-- A Python object (or keyword-argument dict) as an ordered association
list: attribute name to value, in declaration order. -/
abbrev Obj := List (String × PyVal)

/-- Attribute lookup (first match). -/
def objGet (o : Obj) (k : String) : Option PyVal :=
  match o with
  | [] => none
  | kv :: rest => if kv.1 = k then some kv.2 else objGet rest k

/-- The attribute names of an object. -/
def objKeys (o : Obj) : List String :=
  o.map Prod.fst

/-- `if hasattr(obj, k): setattr(obj, k, v)` — replace the value of an
existing attribute (attribute names of an object are unique), ignore an
unknown name.  `setattr` on an existing attribute keeps its position. -/
def objSetIfKnown : Obj → String → PyVal → Obj
  | [], _, _ => []
  | kd :: rest, k, v => if kd.1 = k then (k, v) :: rest else kd :: objSetIfKnown rest k v

/-- Field names and construction defaults of the dataclass
`WatermarkSettings` of `studio_app.py`, in declaration order. -/
def wsDefaults : Obj :=
  [("wm_type", .pystr "text"),
   ("opacity", .pyint 70),
   ("rotation", .pyrat 0),
   ("pos_rel", .tuple2 (.pyrat ratHalf) (.pyrat ratHalf)),
   ("margin_rel", .pyrat rat3Percent),
   ("text", .pystr "Sample Watermark"),
   ("font_family", .pystr "Arial"),
   ("font_point", .pyint 36),
   ("font_bold", .pybool false),
   ("font_italic", .pybool false),
   ("color_rgba", .pystr "#FFFFFFB3"),
   ("shadow", .pybool true),
   ("image_path", .pystr ""),
   ("image_scale_pct", .pyint 30),
   ("out_dir", .pystr ""),
   ("out_format", .pystr "PNG"),
   ("jpeg_quality", .pyint 90),
   ("resize_mode", .pystr "none"),
   ("resize_value", .pyint 0),
   ("name_mode", .pystr "original"),
   ("name_prefix", .pystr "wm_"),
   ("name_suffix", .pystr "_watermarked")]

/-- `WatermarkSettings.to_dict` of `studio_app.py`: `asdict(self)` — the
object's fields in declaration order, values passed through unchanged
(tuples stay tuples). -/
def ws_to_dict (st : Obj) : Obj :=
  st

/-- `WatermarkSettings.from_dict` of `studio_app.py`: start from a
default-constructed object, then `for k, v in d.items(): if hasattr(obj, k):
setattr(obj, k, v)`.  It never raises. -/
def ws_from_dict (d : Obj) : Obj :=
  d.foldl (fun obj kv => objSetIfKnown obj kv.1 kv.2) wsDefaults

/-- Field names and construction defaults of the dataclass `TextWatermark`
of `studio.py`. -/
def textDefaults : Obj :=
  [("enabled", .pybool true),
   ("text", .pystr "示例水印 Sample"),
   ("font_family", .pystr "Arial"),
   ("font_size_pt", .pyint 36),
   ("bold", .pybool false),
   ("italic", .pybool false),
   ("color_rgba", .tuple4 (.pyint 255) (.pyint 255) (.pyint 255) (.pyint 200)),
   ("stroke_enabled", .pybool false),
   ("stroke_color_rgba", .tuple4 (.pyint 0) (.pyint 0) (.pyint 0) (.pyint 180)),
   ("stroke_width_px", .pyint 2),
   ("shadow_enabled", .pybool false),
   ("shadow_offset_px", .pyint 2),
   ("shadow_alpha", .pyint 120)]

/-- Field names and construction defaults of the dataclass `ImageWatermark`
of `studio.py`. -/
def imageDefaults : Obj :=
  [("enabled", .pybool false),
   ("image_path", .pystr ""),
   ("scale_percent", .pyint 30),
   ("opacity", .pyint 70)]

/-- Field names and construction defaults of the dataclass `LayoutStyle`
of `studio.py`. -/
def layoutDefaults : Obj :=
  [("pos_x", .pyrat ratHalf),
   ("pos_y", .pyrat ratHalf),
   ("rotation_deg", .pyint 0),
   ("margin_percent", .pyrat 2)]

/-- Field names and construction defaults of the dataclass `ExportSettings`
of `studio.py` (`output_dir` defaults to the user's pictures directory,
environment-dependent; a fixed resolved string stands for it). -/
def exportDefaults : Obj :=
  [("output_dir", .pystr "~/Pictures/watermarked"),
   ("forbid_source_dir", .pybool true),
   ("format", .pystr "PNG"),
   ("jpeg_quality", .pyint 90),
   ("resize_mode", .pystr "None"),
   ("resize_value", .pyint 100),
   ("naming_rule", .pystr "suffix"),
   ("prefix", .pystr "wm_"),
   ("suffix", .pystr "_watermarked")]

/-- The fields a dataclass constructor produces: each declared field takes
the given keyword value or its default. -/
def initFields (defaults kwargs : Obj) : Obj :=
  defaults.map (fun kd => (kd.1, (objGet kwargs kd.1).getD kd.2))

/-- A Python dataclass constructor called with keyword arguments
`Cls(**kwargs)`: a keyword that is not a declared field raises `TypeError`;
declared fields take the given value or the default. -/
def dataclassInit (defaults kwargs : Obj) : Except String Obj :=
  if kwargs.all (fun kv => (objKeys defaults).contains kv.1) then
    .ok (initFields defaults kwargs)
  else .error "TypeError: unexpected keyword argument"

/-- The four sections of a serialized `WatermarkConfig` of `studio.py`
(dynamic view used by `to_json`/`from_json`). -/
structure PyConfig where
  text : Obj
  image : Obj
  layout : Obj
  export_cfg : Obj
deriving DecidableEq, Repr

/-- The default-constructed `WatermarkConfig` of `studio.py`, dynamic
view. -/
def pyConfigDefault : PyConfig :=
  ⟨textDefaults, imageDefaults, layoutDefaults, exportDefaults⟩

/-- A serialized configuration document: section name to section dict. -/
abbrev ConfigDoc := List (String × Obj)

/-- Section lookup in a document. -/
def docGet (d : ConfigDoc) (k : String) : Option Obj :=
  match d with
  | [] => none
  | kv :: rest => if kv.1 = k then some kv.2 else docGet rest k

/-- `WatermarkConfig.to_json` of `studio.py` up to JSON text: `asdict(self)`
as a section-name to field-dict document, tuples still tuples. -/
def to_json_doc (c : PyConfig) : ConfigDoc :=
  [("text", c.text), ("image", c.image), ("layout", c.layout), ("export", c.export_cfg)]

/-- What `json.loads` returns after `json.dumps` of a document: the same
sections with every tuple value now a list. -/
def docWire (d : ConfigDoc) : ConfigDoc :=
  d.map (fun s => (s.1, s.2.map (fun kv => (kv.1, jsonWire kv.2))))

/-- `WatermarkConfig.from_json` of `studio.py`: each section dict (or `{}`
when the key is absent) is passed as keyword arguments to the section's
dataclass constructor; unknown section keys are ignored, an unknown field
inside a section raises `TypeError`. -/
def from_json (d : ConfigDoc) : Except String PyConfig := do
  let t ← dataclassInit textDefaults ((docGet d "text").getD [])
  let i ← dataclassInit imageDefaults ((docGet d "image").getD [])
  let l ← dataclassInit layoutDefaults ((docGet d "layout").getD [])
  let e ← dataclassInit exportDefaults ((docGet d "export").getD [])
  .ok ⟨t, i, l, e⟩

deriving instance DecidableEq for Except

/-- The sections of a configuration after one pass through JSON text:
every tuple value replaced by the corresponding list. -/
def wireConfig (c : PyConfig) : PyConfig :=
  ⟨c.text.map (fun kv => (kv.1, jsonWire kv.2)),
   c.image.map (fun kv => (kv.1, jsonWire kv.2)),
   c.layout.map (fun kv => (kv.1, jsonWire kv.2)),
   c.export_cfg.map (fun kv => (kv.1, jsonWire kv.2))⟩

/-- `MainWindow._build_output_name` of `studio.py`: apply the naming rule to
the stem; the extension is attached later by `_export_single`. -/
def build_output_name (e : ExportSettings) (stem : String) : String :=
  if e.naming_rule = "keep" then stem
  else if e.naming_rule = "prefix" then e.prefix_str ++ stem
  else stem ++ e.suffix

/-- The destination file name `_export_single` saves to:
`(outdir / out_name).with_suffix('.png' | '.jpg')` according to the chosen
output format. -/
def export_dest_name (e : ExportSettings) (stem : String) : String :=
  let nm := build_output_name e stem
  if pyUpper e.format = "PNG" then withSuffix nm ".png" else withSuffix nm ".jpg"

/-- The source file of a batch item in `studio.py`: its resolved parent
directory, stem, original extension, the result of decoding it, and whether
`QImage.save` succeeds at the destination. -/
structure SrcFile where
  dir : DirPath
  stem : String
  sfx : String
  decoded : Option Image
  save_ok : Bool
deriving DecidableEq, Repr

/-- `MainWindow._export_single` of `studio.py`: decode, resize, composite,
save; `none` when the item fails (decode failure or save failure), else the
path of the written file. -/
def export_single (env : Env) (cfg : WatermarkConfig) (outdir : DirPath) (f : SrcFile) :
    Option DirPath :=
  match f.decoded with
  | none => none
  | some img =>
      let resized := apply_resize cfg.export_cfg img
      let _composed := composite_watermark env cfg resized
      if f.save_ok then some (outdir ++ [export_dest_name cfg.export_cfg f.stem])
      else none

/-- Outcome of `MainWindow.export_all` of `studio.py`. -/
inductive ExportAllResult where
  | noImages
  | forbidden
  | finished (success fail : ℕ)
deriving DecidableEq, Repr

/-- One iteration of the export loop of `export_all`: count a success and
record the written file, or count a failure. -/
def export_step (env : Env) (cfg : WatermarkConfig) (outdir : DirPath)
    (acc : FS × ℕ × ℕ) (f : SrcFile) : FS × ℕ × ℕ :=
  match export_single env cfg outdir f with
  | some dest => ({ acc.1 with files := acc.1.files ++ [dest] }, acc.2.1 + 1, acc.2.2)
  | none => (acc.1, acc.2.1, acc.2.2 + 1)

/-- `MainWindow.export_all` of `studio.py`: refuse an empty list, create the
output directory (with parents), abort when `forbid_source_dir` is set and
the output directory is the parent of some source, else process every item
sequentially counting successes and failures.  The cancel button of the
progress dialog is modelled as never pressed. -/
def export_all (env : Env) (fs : FS) (cfg : WatermarkConfig) (images : List SrcFile) :
    FS × ExportAllResult :=
  if images.isEmpty then (fs, .noImages)
  else
    let fs1 := mkdirParents fs cfg.export_cfg.output_dir
    if cfg.export_cfg.forbid_source_dir = true ∧
        images.any (fun f => decide (f.dir = cfg.export_cfg.output_dir)) then
      (fs1, .forbidden)
    else
      let r := images.foldl (export_step env cfg cfg.export_cfg.output_dir) (fs1, 0, 0)
      (r.1, .finished r.2.1 r.2.2)

/-! ## Concrete instances used by the counterexamples and witnesses -/

/-- A concrete Qt runtime: no file exists (no image watermark is
configured in the scenarios that use it), text measured 64 by 24 pixels,
rotation a no-op. -/
def envWit : Env :=
  { path_exists := fun _ => false,
    decode := fun _ => none,
    text_bbox_app := fun _ => (64, 24),
    text_bbox := fun _ => (64, 24),
    rotated := fun _ i => i }

/-- The empty filesystem. -/
def fs0 : FS := ⟨[], []⟩

/-- `studio.py` configuration with the source-directory protection switched
off in the export settings and the source directory as output directory. -/
def cfgNF : WatermarkConfig :=
  { export_cfg := { output_dir := ["d"], forbid_source_dir := false } }

/-- A decodable source file living in directory `d`. -/
def fInD : SrcFile :=
  { dir := ["d"], stem := "a", sfx := ".jpg", decoded := some ⟨8, 8⟩, save_ok := true }

/-- `studio.py` configuration whose enabled text watermark is blank after
trimming. -/
def cfgBlankText : WatermarkConfig :=
  { text := { text := "   " }, export_cfg := { output_dir := ["out"] } }

/-- A decodable source file living in directory `src`. -/
def fInSrc : SrcFile :=
  { dir := ["src"], stem := "a", sfx := ".jpg", decoded := some ⟨8, 8⟩, save_ok := true }

/-- `studio_app.py` settings with an output directory chosen. -/
def stOut : WatermarkSettings := { out_dir := ["out"] }

/-- First batch item: decodes and saves. -/
def item1 : SourceItem :=
  { dir := ["src"], stem := "p1", name := "p1.jpg", decoded := some ⟨10, 10⟩, save_ok := true }

/-- Second batch item: its source file fails to decode. -/
def item2 : SourceItem :=
  { dir := ["src"], stem := "p2", name := "p2.jpg", decoded := none, save_ok := true }

/-- Third batch item: decodes and saves. -/
def item3 : SourceItem :=
  { dir := ["src"], stem := "p3", name := "p3.jpg", decoded := some ⟨12, 9⟩, save_ok := true }

/-- `studio_app.py` settings requesting a width resize to 200 pixels. -/
def stWidth200 : WatermarkSettings := { resize_mode := "width", resize_value := 200 }

/-- `studio_app.py` settings with anchor `(0.4797, 0.5)`. -/
def stAnchor : WatermarkSettings := { pos_rel := (4797/10000, 1/2) }

/-- `studio.py` export settings keeping the original stem, PNG output. -/
def eKeepPng : ExportSettings := { naming_rule := "keep" }

/-- `studio.py` export settings with the prefix rule, PNG output. -/
def ePrefixPng : ExportSettings := { naming_rule := "prefix" }

/-- `studio_app.py` settings with the prefix naming rule. -/
def stPrefix : WatermarkSettings := { name_mode := "prefix" }

/-- A populated text-kind configuration of `studio.py` (dynamic view):
text watermark enabled with custom content, image watermark inert. -/
def cfgTextKind : PyConfig :=
  { pyConfigDefault with
      text := objSetIfKnown textDefaults "text" (.pystr "Hello") }

/-- A populated image-kind configuration of `studio.py` (dynamic view):
image watermark enabled with a path, text watermark disabled. -/
def cfgImageKind : PyConfig :=
  { pyConfigDefault with
      text := objSetIfKnown textDefaults "enabled" (.pybool false),
      image := objSetIfKnown (objSetIfKnown imageDefaults "enabled" (.pybool true))
        "image_path" (.pystr "/home/user/logo.png") }


/-- `studio_app.py` settings whose output directory is the items' source
directory. -/
def stConflict : WatermarkSettings := { out_dir := ["src"] }

/-- `studio.py` configuration exporting into directory `d` with the default
protection on. -/
def cfgD : WatermarkConfig := { export_cfg := { output_dir := ["d"] } }

/-- `studio.py` configuration exporting into directory `out`. -/
def cfgOut : WatermarkConfig := { export_cfg := { output_dir := ["out"] } }

/-- First `studio.py` batch item: decodes and saves. -/
def fSrc1 : SrcFile :=
  { dir := ["src"], stem := "p1", sfx := ".jpg", decoded := some ⟨10, 10⟩, save_ok := true }

/-- Second `studio.py` batch item: corrupt source, fails to decode. -/
def fSrcBad : SrcFile :=
  { dir := ["src"], stem := "p2", sfx := ".jpg", decoded := none, save_ok := true }

/-- Third `studio.py` batch item: decodes and saves. -/
def fSrc3 : SrcFile :=
  { dir := ["src"], stem := "p3", sfx := ".jpg", decoded := some ⟨12, 9⟩, save_ok := true }

/-- `studio_app.py` settings with a blank text watermark. -/
def stBlank : WatermarkSettings := { out_dir := ["out"], text := "   " }

/-- `studio_app.py` settings whose image watermark file does not exist. -/
def stImgMissing : WatermarkSettings :=
  { out_dir := ["out"], wm_type := "image", image_path := "w.png" }

/-- `studio_app.py` settings with a two-component output directory and a
blank text watermark. -/
def stBlankDeep : WatermarkSettings := { out_dir := ["o1", "o2"], text := "   " }

/-- `studio.py` export settings scaling to width 200. -/
def eWidth200 : ExportSettings := { resize_mode := "Width", resize_value := 200 }

/-- `studio.py` export settings scaling to height 200. -/
def eHeight200 : ExportSettings := { resize_mode := "Height", resize_value := 200 }

/-- `studio_app.py` settings requesting a height resize to 200 pixels. -/
def stHeight200 : WatermarkSettings := { resize_mode := "height", resize_value := 200 }

/-- Default `studio_app.py` settings (scale percent 30). -/
def stDefault : WatermarkSettings := {}

/-- A Qt runtime on which every path exists and decodes to a 40x20
raster. -/
def envLogo : Env :=
  { path_exists := fun _ => true,
    decode := fun _ => some ⟨40, 20⟩,
    text_bbox_app := fun _ => (64, 24),
    text_bbox := fun _ => (64, 24),
    rotated := fun _ i => i }

/-- An enabled `studio.py` image watermark pointing at `logo.png`. -/
def icfgLogo : ImageWatermark := { enabled := true, image_path := "logo.png" }

/-! ## Helper lemmas about the filesystem and the export loops -/

theorem files_mkdirParents (fs : FS) (d : DirPath) :
    (mkdirParents fs d).files = fs.files := rfl

theorem mem_dirs_mkdirParents (fs : FS) (d : DirPath) :
    ∀ p ∈ prefixesOf d, p ∈ (mkdirParents fs d).dirs := by
  intro p hp
  by_cases h : p ∈ fs.dirs
  · exact List.mem_append_left _ h
  · refine List.mem_append_right _ ?_
    rw [List.mem_filter]
    exact ⟨hp, by simpa using h⟩

theorem foldl_export_item_eq (env : Env) (st : WatermarkSettings) (fmt : String) :
    ∀ (items : List SourceItem) (fs : FS) (errs : List String),
      items.foldl (export_item_step env st fmt) (fs, errs)
        = (⟨fs.dirs, fs.files ++ items.filterMap (successDest st fmt)⟩,
           errs ++ items.filterMap failureMsg) := by
  intro items
  induction items with
  | nil => intro fs errs; simp
  | cons it rest ih =>
      intro fs errs
      simp only [List.foldl_cons]
      cases hd : it.decoded with
      | none =>
          rw [show export_item_step env st fmt (fs, errs) it
                = (fs, errs ++ [it.name ++ ": 无法读取图片"]) by
              simp [export_item_step, hd]]
          rw [ih]
          simp [successDest, failureMsg, hd, List.filterMap_cons]
      | some img =>
          by_cases hs : it.save_ok = true
          · rw [show export_item_step env st fmt (fs, errs) it
                  = (⟨fs.dirs, fs.files ++ [st.out_dir ++ [compute_out_name it.stem st fmt]]⟩,
                     errs) by
                simp [export_item_step, hd, hs]]
            rw [ih]
            simp [successDest, failureMsg, hd, hs, List.filterMap_cons]
          · rw [show export_item_step env st fmt (fs, errs) it
                  = (fs, errs ++ [it.name ++ ": 保存失败"]) by
                simp [export_item_step, hd, hs]]
            rw [ih]
            simp [successDest, failureMsg, hd, hs, List.filterMap_cons]

theorem on_export_run (env : Env) (fs : FS) (st : WatermarkSettings)
    (items : List SourceItem)
    (h1 : items ≠ [])
    (h2 : st.out_dir ≠ [])
    (h3 : ∀ it ∈ items, it.dir ≠ st.out_dir)
    (h4 : ¬(st.wm_type = "text" ∧ pyStrip st.text = ""))
    (h5 : ¬(st.wm_type = "image" ∧ env.path_exists st.image_path = false)) :
    on_export env fs st items
      = (⟨(mkdirParents fs st.out_dir).dirs,
          fs.files ++ items.filterMap (successDest st (pyUpper st.out_format))⟩,
         .finished (items.filterMap failureMsg)) := by
  unfold on_export
  rw [if_neg (by simpa [List.isEmpty_iff] using h1)]
  rw [if_neg (by simpa [List.isEmpty_iff] using h2)]
  rw [if_neg (by
    simp only [List.any_eq_true, decide_eq_true_eq]
    rintro ⟨it, hit, hEq⟩
    exact h3 it hit hEq)]
  rw [if_neg h4, if_neg h5]
  simp only [foldl_export_item_eq]
  simp [mkdirParents]

theorem on_export_conflict (env : Env) (fs : FS) (st : WatermarkSettings)
    (items : List SourceItem)
    (h1 : items ≠ [])
    (h2 : st.out_dir ≠ [])
    (h3 : ∃ it ∈ items, it.dir = st.out_dir) :
    on_export env fs st items = (mkdirParents fs st.out_dir, .dirConflict) := by
  unfold on_export
  rw [if_neg (by simpa [List.isEmpty_iff] using h1)]
  rw [if_neg (by simpa [List.isEmpty_iff] using h2)]
  rw [if_pos (by
    simp only [List.any_eq_true, decide_eq_true_eq]
    exact h3)]

theorem on_export_empty_text (env : Env) (fs : FS) (st : WatermarkSettings)
    (items : List SourceItem)
    (h1 : items ≠ [])
    (h2 : st.out_dir ≠ [])
    (h3 : ∀ it ∈ items, it.dir ≠ st.out_dir)
    (h4 : st.wm_type = "text")
    (h5 : pyStrip st.text = "") :
    on_export env fs st items = (mkdirParents fs st.out_dir, .emptyText) := by
  unfold on_export
  rw [if_neg (by simpa [List.isEmpty_iff] using h1)]
  rw [if_neg (by simpa [List.isEmpty_iff] using h2)]
  rw [if_neg (by
    simp only [List.any_eq_true, decide_eq_true_eq]
    rintro ⟨it, hit, hEq⟩
    exact h3 it hit hEq)]
  rw [if_pos ⟨h4, h5⟩]

theorem on_export_missing_image (env : Env) (fs : FS) (st : WatermarkSettings)
    (items : List SourceItem)
    (h1 : items ≠ [])
    (h2 : st.out_dir ≠ [])
    (h3 : ∀ it ∈ items, it.dir ≠ st.out_dir)
    (h4 : st.wm_type = "image")
    (h5 : env.path_exists st.image_path = false) :
    on_export env fs st items = (mkdirParents fs st.out_dir, .missingWatermarkImage) := by
  unfold on_export
  rw [if_neg (by simpa [List.isEmpty_iff] using h1)]
  rw [if_neg (by simpa [List.isEmpty_iff] using h2)]
  rw [if_neg (by
    simp only [List.any_eq_true, decide_eq_true_eq]
    rintro ⟨it, hit, hEq⟩
    exact h3 it hit hEq)]
  rw [if_neg (by simp [h4]), if_pos ⟨h4, h5⟩]

theorem foldl_export_step_eq (env : Env) (cfg : WatermarkConfig) (outdir : DirPath) :
    ∀ (images : List SrcFile) (fs : FS) (s f : ℕ),
      images.foldl (export_step env cfg outdir) (fs, s, f)
        = (⟨fs.dirs, fs.files ++ images.filterMap (export_single env cfg outdir)⟩,
           s + images.countP (fun x => (export_single env cfg outdir x).isSome),
           f + images.countP (fun x => (export_single env cfg outdir x).isNone)) := by
  intro images
  induction images with
  | nil => intro fs s f; simp
  | cons x rest ih =>
      intro fs s f
      simp only [List.foldl_cons]
      cases hx : export_single env cfg outdir x with
      | none =>
          rw [show export_step env cfg outdir (fs, s, f) x = (fs, s, f + 1) by
            simp [export_step, hx]]
          rw [ih]
          simp only [List.filterMap_cons, hx, List.countP_cons, Option.isSome_none,
            Option.isNone_none, Bool.false_eq_true, if_true, if_false, eq_self_iff_true,
            Prod.mk.injEq]
          exact ⟨trivial, by omega, by omega⟩
      | some dest =>
          rw [show export_step env cfg outdir (fs, s, f) x
                = (⟨fs.dirs, fs.files ++ [dest]⟩, s + 1, f) by
            simp [export_step, hx]]
          rw [ih]
          simp only [List.filterMap_cons, hx, List.countP_cons, Option.isSome_some,
            Option.isNone_some, Bool.false_eq_true, if_true, if_false, eq_self_iff_true,
            Prod.mk.injEq]
          exact ⟨by simp, by omega, by omega⟩

theorem export_all_forbidden (env : Env) (fs : FS) (cfg : WatermarkConfig)
    (images : List SrcFile)
    (h1 : images ≠ [])
    (h2 : cfg.export_cfg.forbid_source_dir = true)
    (h3 : ∃ x ∈ images, x.dir = cfg.export_cfg.output_dir) :
    export_all env fs cfg images = (mkdirParents fs cfg.export_cfg.output_dir, .forbidden) := by
  unfold export_all
  rw [if_neg (by simpa [List.isEmpty_iff] using h1)]
  rw [if_pos ⟨h2, by simpa only [List.any_eq_true, decide_eq_true_eq] using h3⟩]

theorem export_all_run (env : Env) (fs : FS) (cfg : WatermarkConfig)
    (images : List SrcFile)
    (h1 : images ≠ [])
    (h2 : ¬(cfg.export_cfg.forbid_source_dir = true ∧
            ∃ x ∈ images, x.dir = cfg.export_cfg.output_dir)) :
    export_all env fs cfg images
      = (⟨(mkdirParents fs cfg.export_cfg.output_dir).dirs,
          fs.files ++ images.filterMap (export_single env cfg cfg.export_cfg.output_dir)⟩,
         .finished
           (images.countP (fun x => (export_single env cfg cfg.export_cfg.output_dir x).isSome))
           (images.countP (fun x => (export_single env cfg cfg.export_cfg.output_dir x).isNone))) := by
  unfold export_all
  rw [if_neg (by simpa [List.isEmpty_iff] using h1)]
  rw [if_neg (by
    simp only [List.any_eq_true, decide_eq_true_eq]
    exact h2)]
  rw [foldl_export_step_eq]
  simp [mkdirParents]

/-! ## Claims C1, C2, C6, C10: batch preconditions and partial-failure semantics -/

/-- Claim C1 (amended): when the resolved output directory is the containing
directory of at least one source image, `studio_app.py`'s `on_export` always
fails the whole batch with the conflict message before any item is
processed and writes no image file; `studio.py`'s `export_all` does so when
the configuration's `forbid_source_dir` option is enabled (its default).
With that option disabled, `export_all` proceeds (see the
counterexample). -/
theorem c1_output_dir_conflict_fails_batch :
    (∀ (env : Env) (fs : FS) (st : WatermarkSettings) (items : List SourceItem),
        items ≠ [] → st.out_dir ≠ [] →
        (∃ it ∈ items, it.dir = st.out_dir) →
        on_export env fs st items = (mkdirParents fs st.out_dir, .dirConflict) ∧
        (on_export env fs st items).1.files = fs.files) ∧
    (∀ (env : Env) (fs : FS) (cfg : WatermarkConfig) (images : List SrcFile),
        images ≠ [] → cfg.export_cfg.forbid_source_dir = true →
        (∃ x ∈ images, x.dir = cfg.export_cfg.output_dir) →
        export_all env fs cfg images
          = (mkdirParents fs cfg.export_cfg.output_dir, .forbidden) ∧
        (export_all env fs cfg images).1.files = fs.files) := by
  constructor
  · intro env fs st items h1 h2 h3
    have h := on_export_conflict env fs st items h1 h2 h3
    exact ⟨h, by rw [h]; rfl⟩
  · intro env fs cfg images h1 h2 h3
    have h := export_all_forbidden env fs cfg images h1 h2 h3
    exact ⟨h, by rw [h]; rfl⟩

/-- Witness for C1: a one-item batch whose source directory is the output
directory is aborted by both pipelines with nothing written. -/
theorem c1_witness :
    (on_export envWit fs0 stConflict [item1] = (mkdirParents fs0 ["src"], .dirConflict) ∧
      (on_export envWit fs0 stConflict [item1]).1.files = fs0.files) ∧
    (export_all envWit fs0 cfgD [fInD] = (mkdirParents fs0 ["d"], .forbidden) ∧
      (export_all envWit fs0 cfgD [fInD]).1.files = fs0.files) :=
  ⟨c1_output_dir_conflict_fails_batch.1 envWit fs0 stConflict [item1]
      (by decide) (by decide) (by decide),
   c1_output_dir_conflict_fails_batch.2 envWit fs0 cfgD [fInD]
      (by decide) (by decide) (by decide)⟩

/-- Counterexample for C1 as stated: with `forbid_source_dir = false`,
`studio.py`'s `export_all` exports a batch whose output directory is the
source's own directory — the batch does not fail and one file is written
into that directory. -/
theorem c1_counterexample :
    export_all envWit fs0 cfgNF [fInD]
      = (⟨[["d"]], [["d", "a_watermarked.png"]]⟩, .finished 1 0) ∧
    (export_all envWit fs0 cfgNF [fInD]).1.files ≠ [] := by
  exact ⟨by decide, by decide⟩

/-- Claim C2: both batch loops record a failing item and continue with the
remaining items; the recorded failures keep the input order, the files
written are exactly those of the successful items in input order, and
`studio.py` additionally counts successes and failures. -/
theorem c2_partial_failure_batch :
    (∀ (env : Env) (fs : FS) (st : WatermarkSettings) (items : List SourceItem),
        items ≠ [] → st.out_dir ≠ [] →
        (∀ it ∈ items, it.dir ≠ st.out_dir) →
        ¬(st.wm_type = "text" ∧ pyStrip st.text = "") →
        ¬(st.wm_type = "image" ∧ env.path_exists st.image_path = false) →
        on_export env fs st items
          = (⟨(mkdirParents fs st.out_dir).dirs,
              fs.files ++ items.filterMap (successDest st (pyUpper st.out_format))⟩,
             .finished (items.filterMap failureMsg))) ∧
    (∀ (env : Env) (fs : FS) (cfg : WatermarkConfig) (images : List SrcFile),
        images ≠ [] →
        ¬(cfg.export_cfg.forbid_source_dir = true ∧
          ∃ x ∈ images, x.dir = cfg.export_cfg.output_dir) →
        export_all env fs cfg images
          = (⟨(mkdirParents fs cfg.export_cfg.output_dir).dirs,
              fs.files ++ images.filterMap (export_single env cfg cfg.export_cfg.output_dir)⟩,
             .finished
               (images.countP
                 (fun x => (export_single env cfg cfg.export_cfg.output_dir x).isSome))
               (images.countP
                 (fun x => (export_single env cfg cfg.export_cfg.output_dir x).isNone)))) :=
  ⟨on_export_run, export_all_run⟩

/-- Witness for C2: the three-item batch whose second item is corrupt.
Items 1 and 3 produce output files, the failure list is exactly the second
item, in input order, and `studio.py` reports 2 successes and 1 failure. -/
theorem c2_witness :
    on_export envWit fs0 stOut [item1, item2, item3]
      = (⟨[["out"]], [["out", "p1.png"], ["out", "p3.png"]]⟩,
         .finished ["p2.jpg: 无法读取图片"]) ∧
    export_all envWit fs0 cfgOut [fSrc1, fSrcBad, fSrc3]
      = (⟨[["out"]], [["out", "p1_watermarked.png"], ["out", "p3_watermarked.png"]]⟩,
         .finished 2 1) := by
  have h1 := c2_partial_failure_batch.1 envWit fs0 stOut [item1, item2, item3]
    (by decide) (by decide) (by decide) (by decide) (by decide)
  have h2 := c2_partial_failure_batch.2 envWit fs0 cfgOut [fSrc1, fSrcBad, fSrc3]
    (by decide) (by decide)
  exact ⟨h1.trans (by decide), h2.trans (by decide)⟩

/-- Claim C6 (amended): `studio_app.py`'s `on_export` rejects an invalid
active watermark source (blank text, or missing image-watermark file) as a
batch-level precondition before any item runs and writes nothing;
`studio.py`'s `export_all` performs no such check — it exports the batch
without a watermark (see the counterexample). -/
theorem c6_invalid_watermark_precondition :
    (∀ (env : Env) (fs : FS) (st : WatermarkSettings) (items : List SourceItem),
        items ≠ [] → st.out_dir ≠ [] →
        (∀ it ∈ items, it.dir ≠ st.out_dir) →
        st.wm_type = "text" → pyStrip st.text = "" →
        on_export env fs st items = (mkdirParents fs st.out_dir, .emptyText) ∧
        (on_export env fs st items).1.files = fs.files) ∧
    (∀ (env : Env) (fs : FS) (st : WatermarkSettings) (items : List SourceItem),
        items ≠ [] → st.out_dir ≠ [] →
        (∀ it ∈ items, it.dir ≠ st.out_dir) →
        st.wm_type = "image" → env.path_exists st.image_path = false →
        on_export env fs st items = (mkdirParents fs st.out_dir, .missingWatermarkImage) ∧
        (on_export env fs st items).1.files = fs.files) := by
  constructor
  · intro env fs st items h1 h2 h3 h4 h5
    have h := on_export_empty_text env fs st items h1 h2 h3 h4 h5
    exact ⟨h, by rw [h]; rfl⟩
  · intro env fs st items h1 h2 h3 h4 h5
    have h := on_export_missing_image env fs st items h1 h2 h3 h4 h5
    exact ⟨h, by rw [h]; rfl⟩

/-- Witness for C6: one-item batches with a blank text watermark and with a
missing image-watermark file are both rejected up front by `on_export`. -/
theorem c6_witness :
    (on_export envWit fs0 stBlank [item1] = (mkdirParents fs0 ["out"], .emptyText) ∧
      (on_export envWit fs0 stBlank [item1]).1.files = fs0.files) ∧
    (on_export envWit fs0 stImgMissing [item1]
        = (mkdirParents fs0 ["out"], .missingWatermarkImage) ∧
      (on_export envWit fs0 stImgMissing [item1]).1.files = fs0.files) :=
  ⟨c6_invalid_watermark_precondition.1 envWit fs0 stBlank [item1]
      (by decide) (by decide) (by decide) (by decide) (by decide),
   c6_invalid_watermark_precondition.2 envWit fs0 stImgMissing [item1]
      (by decide) (by decide) (by decide) (by decide) (by decide)⟩

/-- Counterexample for C6 as stated: `studio.py`'s `export_all` with an
enabled but blank text watermark does not fail at all — the item is
processed, exported without a watermark, and counted as a success. -/
theorem c6_counterexample :
    export_all envWit fs0 cfgBlankText [fInSrc]
      = (⟨[["out"]], [["out", "a_watermarked.png"]]⟩, .finished 1 0) ∧
    (export_all envWit fs0 cfgBlankText [fInSrc]).1.files ≠ [] := by
  exact ⟨by decide, by decide⟩

/-- Claim C10: both pipelines create the output directory (with its missing
parents) before the conflict and watermark-validity checks, so a batch those
checks reject still leaves the directory chain created while no image file
is written and the loop is never reached. -/
theorem c10_outdir_created_before_checks :
    (∀ (env : Env) (fs : FS) (st : WatermarkSettings) (items : List SourceItem),
        items ≠ [] → st.out_dir ≠ [] →
        ((∃ it ∈ items, it.dir = st.out_dir) ∨
         (st.wm_type = "text" ∧ pyStrip st.text = "") ∨
         (st.wm_type = "image" ∧ env.path_exists st.image_path = false)) →
        (∀ p ∈ prefixesOf st.out_dir, p ∈ (on_export env fs st items).1.dirs) ∧
        (on_export env fs st items).1.files = fs.files ∧
        ∀ errs, (on_export env fs st items).2 ≠ .finished errs) ∧
    (∀ (env : Env) (fs : FS) (cfg : WatermarkConfig) (images : List SrcFile),
        images ≠ [] → cfg.export_cfg.forbid_source_dir = true →
        (∃ x ∈ images, x.dir = cfg.export_cfg.output_dir) →
        (∀ p ∈ prefixesOf cfg.export_cfg.output_dir,
            p ∈ (export_all env fs cfg images).1.dirs) ∧
        (export_all env fs cfg images).1.files = fs.files ∧
        ∀ s f, (export_all env fs cfg images).2 ≠ .finished s f) := by
  constructor
  · intro env fs st items h1 h2 h3
    rcases h3 with hc | ⟨h4, h5⟩ | ⟨h4, h5⟩
    · rw [on_export_conflict env fs st items h1 h2 hc]
      exact ⟨mem_dirs_mkdirParents fs st.out_dir, rfl, by simp⟩
    · by_cases hcon : ∃ it ∈ items, it.dir = st.out_dir
      · rw [on_export_conflict env fs st items h1 h2 hcon]
        exact ⟨mem_dirs_mkdirParents fs st.out_dir, rfl, by simp⟩
      · push_neg at hcon
        rw [on_export_empty_text env fs st items h1 h2 hcon h4 h5]
        exact ⟨mem_dirs_mkdirParents fs st.out_dir, rfl, by simp⟩
    · by_cases hcon : ∃ it ∈ items, it.dir = st.out_dir
      · rw [on_export_conflict env fs st items h1 h2 hcon]
        exact ⟨mem_dirs_mkdirParents fs st.out_dir, rfl, by simp⟩
      · push_neg at hcon
        rw [on_export_missing_image env fs st items h1 h2 hcon h4 h5]
        exact ⟨mem_dirs_mkdirParents fs st.out_dir, rfl, by simp⟩
  · intro env fs cfg images h1 h2 h3
    rw [export_all_forbidden env fs cfg images h1 h2 h3]
    exact ⟨mem_dirs_mkdirParents fs cfg.export_cfg.output_dir, rfl, by simp⟩

/-- Witness for C10: a rejected batch with the two-component output
directory `o1/o2` leaves both `o1` and `o1/o2` created with no file
written; same for `studio.py` on a conflicting batch. -/
theorem c10_witness :
    (["o1"] ∈ (on_export envWit fs0 stBlankDeep [item1]).1.dirs ∧
      ["o1", "o2"] ∈ (on_export envWit fs0 stBlankDeep [item1]).1.dirs ∧
      (on_export envWit fs0 stBlankDeep [item1]).1.files = fs0.files ∧
      (on_export envWit fs0 stBlankDeep [item1]).2 ≠ .finished []) ∧
    (["d"] ∈ (export_all envWit fs0 cfgD [fInD]).1.dirs ∧
      (export_all envWit fs0 cfgD [fInD]).1.files = fs0.files ∧
      (export_all envWit fs0 cfgD [fInD]).2 ≠ .finished 1 0) := by
  have h1 := c10_outdir_created_before_checks.1 envWit fs0 stBlankDeep [item1]
    (by decide) (by decide) (Or.inr (Or.inl (by decide)))
  have h2 := c10_outdir_created_before_checks.2 envWit fs0 cfgD [fInD]
    (by decide) (by decide) (by decide)
  exact ⟨⟨h1.1 ["o1"] (by decide), h1.1 ["o1", "o2"] (by decide), h1.2.1, h1.2.2 []⟩,
         ⟨h2.1 ["d"] (by decide), h2.2.1, h2.2.2 1 0⟩⟩

/-! ## Claim C3: resize stage -/

/-- Claim C3 (amended): `studio.py`'s `_apply_resize` scales unconditionally
so the named dimension equals the value (upscaling included); in
`studio_app.py`'s `compose_image` the width/height resize applies only when
the requested value is strictly below the current dimension — when the
value is at least the dimension, the image is returned unchanged and
upscaling is silently skipped. -/
theorem c3_resize_named_dimension :
    (∀ (e : ExportSettings) (img : Image),
        e.resize_mode = "Width" → 1 ≤ e.resize_value → 0 < img.width → 0 < img.height →
        (apply_resize e img).width = e.resize_value.toNat) ∧
    (∀ (e : ExportSettings) (img : Image),
        e.resize_mode = "Height" → 1 ≤ e.resize_value → 0 < img.width → 0 < img.height →
        (apply_resize e img).height = e.resize_value.toNat) ∧
    (∀ (st : WatermarkSettings) (img : Image),
        st.resize_mode = "width" → (img.width : ℤ) ≤ st.resize_value →
        compose_resize st img = img) ∧
    (∀ (st : WatermarkSettings) (img : Image),
        st.resize_mode = "height" → (img.height : ℤ) ≤ st.resize_value →
        compose_resize st img = img) := by
  refine ⟨?_, ?_, ?_, ?_⟩
  · intro e img h1 h2 h3 h4
    simp only [apply_resize, h1]
    rw [if_neg (by decide : ¬("Width" : String) = "None")]
    rw [if_pos trivial]
    simp only [scaledToWidth]
    rw [if_neg (by push_neg; exact ⟨by omega, by omega, by omega⟩)]
    dsimp only
    omega
  · intro e img h1 h2 h3 h4
    simp only [apply_resize, h1]
    rw [if_neg (by decide : ¬("Height" : String) = "None"),
        if_neg (by decide : ¬("Height" : String) = "Width")]
    rw [if_pos trivial]
    simp only [scaledToHeight]
    rw [if_neg (by push_neg; exact ⟨by omega, by omega, by omega⟩)]
    dsimp only
    omega
  · intro st img h1 h2
    by_cases hv : 0 < st.resize_value
    · simp only [compose_resize, h1]
      rw [if_pos ⟨by decide, hv⟩]
      rw [if_neg (by rintro ⟨-, hlt⟩; omega)]
      rw [if_neg (by rintro ⟨hcon, -⟩; exact absurd hcon (by decide))]
      rw [if_neg (by decide : ¬("width" : String) = "percent")]
    · simp only [compose_resize, h1]
      rw [if_neg (by rintro ⟨-, hv2⟩; exact hv hv2)]
  · intro st img h1 h2
    by_cases hv : 0 < st.resize_value
    · simp only [compose_resize, h1]
      rw [if_pos ⟨by decide, hv⟩]
      rw [if_neg (by rintro ⟨hcon, -⟩; exact absurd hcon (by decide))]
      rw [if_neg (by rintro ⟨-, hlt⟩; omega)]
      rw [if_neg (by decide : ¬("height" : String) = "percent")]
    · simp only [compose_resize, h1]
      rw [if_neg (by rintro ⟨-, hv2⟩; exact hv hv2)]
/-- Witness for C3: `_apply_resize` upscales a 100x50 image to width 200
and to height 200; `compose_image`'s resize leaves the same image untouched
for the same requests. -/
theorem c3_witness :
    (apply_resize eWidth200 ⟨100, 50⟩).width = 200 ∧
    (apply_resize eHeight200 ⟨100, 50⟩).height = 200 ∧
    compose_resize stWidth200 ⟨100, 50⟩ = ⟨100, 50⟩ ∧
    compose_resize stHeight200 ⟨100, 50⟩ = ⟨100, 50⟩ :=
  ⟨(c3_resize_named_dimension.1 eWidth200 ⟨100, 50⟩ rfl (by decide) (by decide)
      (by decide)).trans (by decide),
   (c3_resize_named_dimension.2.1 eHeight200 ⟨100, 50⟩ rfl (by decide) (by decide)
      (by decide)).trans (by decide),
   c3_resize_named_dimension.2.2.1 stWidth200 ⟨100, 50⟩ rfl (by decide),
   c3_resize_named_dimension.2.2.2 stHeight200 ⟨100, 50⟩ rfl (by decide)⟩

/-- Counterexample for C3 as stated: requesting width 200 on a 100-pixel
wide image in `studio_app.py`'s `compose_image` leaves the width at 100 —
the upscale is silently skipped, while the claim demands output width
200. -/
theorem c3_counterexample :
    compose_resize stWidth200 ⟨100, 50⟩ = ⟨100, 50⟩ ∧
    (compose_resize stWidth200 ⟨100, 50⟩).width ≠ 200 :=
  ⟨by decide, by decide⟩

/-! ## Claim C4: placement arithmetic -/

theorem pyTrunc_eq_floor {q : ℚ} (h : 0 ≤ q) : pyTrunc q = ⌊q⌋ := if_pos h

/-- The center a layer lands on when its top-left corner is the floor of
`c - w/2`: it is strictly within 1 pixel of the exact center `c`, and
within 1 pixel of the spec's round-to-nearest of `c`. -/
theorem floor_center_bound (c : ℚ) (w : ℕ) (h : (w : ℚ) / 2 ≤ c) :
    |((⌊c - (w : ℚ) / 2⌋ : ℚ) + (w : ℚ) / 2) - c| < 1 ∧
    |((⌊c - (w : ℚ) / 2⌋ : ℚ) + (w : ℚ) / 2) - (specRoundNearest c : ℚ)| ≤ 1 := by
  constructor
  · have h1 : ((⌊c - (w : ℚ) / 2⌋ : ℤ) : ℚ) ≤ c - (w : ℚ) / 2 := Int.floor_le _
    have h2 : c - (w : ℚ) / 2 < (⌊c - (w : ℚ) / 2⌋ : ℤ) + 1 := Int.lt_floor_add_one _
    rw [abs_lt]
    constructor <;> push_cast at h1 h2 ⊢ <;> linarith
  · rcases Nat.even_or_odd w with ⟨k, hk⟩ | ⟨k, hk⟩
    · have hw : (w : ℚ) / 2 = ((k : ℤ) : ℚ) := by
        subst hk; push_cast; ring
      have hfl : ⌊c - (w : ℚ) / 2⌋ = ⌊c⌋ - k := by rw [hw, Int.floor_sub_int]
      have hle : ⌊c⌋ ≤ ⌊c + 1 / 2⌋ := Int.floor_le_floor (by linarith)
      have hge : ⌊c + 1 / 2⌋ ≤ ⌊c⌋ + 1 := by
        have h3 : ⌊c + 1 / 2⌋ ≤ ⌊c + 1⌋ := Int.floor_le_floor (by linarith)
        have h4 : ⌊c + (1 : ℚ)⌋ = ⌊c⌋ + 1 := by
          rw [show c + (1 : ℚ) = c + ((1 : ℤ) : ℚ) by push_cast; ring, Int.floor_add_int]
        omega
      rw [hfl, specRoundNearest, hw, abs_le]
      have hle2 : ((⌊c⌋ : ℚ)) ≤ ((⌊c + 1 / 2⌋ : ℤ) : ℚ) := by exact_mod_cast hle
      have hge2 : ((⌊c + 1 / 2⌋ : ℤ) : ℚ) ≤ (⌊c⌋ : ℚ) + 1 := by exact_mod_cast hge
      constructor <;> push_cast at hle2 hge2 ⊢ <;> linarith
    · have hw : (w : ℚ) / 2 = ((k : ℤ) : ℚ) + 1 / 2 := by
        subst hk; push_cast; ring
      have hfl : ⌊c - (w : ℚ) / 2⌋ = ⌊c + 1 / 2⌋ - (k + 1) := by
        rw [hw, show c - (((k : ℤ) : ℚ) + 1 / 2) = (c + 1 / 2) - (((k + 1 : ℤ)) : ℚ) by
          push_cast; ring, Int.floor_sub_int]
      rw [hfl, specRoundNearest, hw]
      have hval : ((⌊c + 1 / 2⌋ - (k + 1) : ℤ) : ℚ) + (((k : ℤ) : ℚ) + 1 / 2)
          - ((⌊c + 1 / 2⌋ : ℤ) : ℚ) = -(1 / 2) := by push_cast; ring
      rw [hval, abs_neg, abs_of_nonneg (by norm_num : (0 : ℚ) ≤ 1 / 2)]
      norm_num

/-- Claim C4 (amended): the top-left draw offset of
`MainWindow.compose_image` is Python `int(center - size/2)`, i.e. the
truncation (floor, for the on-canvas case) of `center - size/2` — not the
round-to-nearest the spec prescribes.  The placed layer's center still lies
strictly within 1 pixel of the exact anchor point and within 1 pixel of its
round-to-nearest, on both axes. -/
theorem c4_draw_offset_truncates (st : WatermarkSettings) (base wm : Image)
    (hx : (wm.width : ℚ) / 2 ≤ st.pos_rel.1 * (base.width : ℚ))
    (hy : (wm.height : ℚ) / 2 ≤ st.pos_rel.2 * (base.height : ℚ)) :
    (draw_offset st base wm).1
      = ⌊st.pos_rel.1 * (base.width : ℚ) - (wm.width : ℚ) / 2⌋ ∧
    (draw_offset st base wm).2
      = ⌊st.pos_rel.2 * (base.height : ℚ) - (wm.height : ℚ) / 2⌋ ∧
    |(((draw_offset st base wm).1 : ℚ) + (wm.width : ℚ) / 2)
        - st.pos_rel.1 * (base.width : ℚ)| < 1 ∧
    |(((draw_offset st base wm).2 : ℚ) + (wm.height : ℚ) / 2)
        - st.pos_rel.2 * (base.height : ℚ)| < 1 ∧
    |(((draw_offset st base wm).1 : ℚ) + (wm.width : ℚ) / 2)
        - (specRoundNearest (st.pos_rel.1 * (base.width : ℚ)) : ℚ)| ≤ 1 ∧
    |(((draw_offset st base wm).2 : ℚ) + (wm.height : ℚ) / 2)
        - (specRoundNearest (st.pos_rel.2 * (base.height : ℚ)) : ℚ)| ≤ 1 := by
  have e1 : (draw_offset st base wm).1
      = ⌊st.pos_rel.1 * (base.width : ℚ) - (wm.width : ℚ) / 2⌋ := by
    simp only [draw_offset]
    exact pyTrunc_eq_floor (by linarith)
  have e2 : (draw_offset st base wm).2
      = ⌊st.pos_rel.2 * (base.height : ℚ) - (wm.height : ℚ) / 2⌋ := by
    simp only [draw_offset]
    exact pyTrunc_eq_floor (by linarith)
  have b1 := floor_center_bound (st.pos_rel.1 * (base.width : ℚ)) wm.width hx
  have b2 := floor_center_bound (st.pos_rel.2 * (base.height : ℚ)) wm.height hy
  exact ⟨e1, e2, by rw [e1]; exact b1.1, by rw [e2]; exact b2.1,
         by rw [e1]; exact b1.2, by rw [e2]; exact b2.2⟩

/-- Witness for C4: anchor `(0.4797, 0.5)` on a 1000x100 canvas with a
4x2 layer gives the truncated offset `(477, 49)`. -/
theorem c4_witness :
    (draw_offset stAnchor ⟨1000, 100⟩ ⟨4, 2⟩).1 = 477 ∧
    (draw_offset stAnchor ⟨1000, 100⟩ ⟨4, 2⟩).2 = 49 := by
  have h := c4_draw_offset_truncates stAnchor ⟨1000, 100⟩ ⟨4, 2⟩
    (by norm_num [stAnchor]) (by norm_num [stAnchor])
  refine ⟨h.1.trans ?_, h.2.1.trans ?_⟩
  · exact Int.floor_eq_iff.mpr (by constructor <;> norm_num [stAnchor])
  · exact Int.floor_eq_iff.mpr (by constructor <;> norm_num [stAnchor])

/-- Counterexample for C4 as stated: at anchor x `0.4797` on a 1000-pixel
wide canvas with a 4-pixel wide layer the exact offset is `477.7`; the code
truncates to 477 while round-to-nearest gives 478. -/
theorem c4_counterexample :
    (draw_offset stAnchor ⟨1000, 100⟩ ⟨4, 2⟩).1
      ≠ specRoundNearest (stAnchor.pos_rel.1 * ((1000 : ℕ) : ℚ) - (4 : ℚ) / 2) := by
  have h1 : (draw_offset stAnchor ⟨1000, 100⟩ ⟨4, 2⟩).1 = 477 := by
    simp only [draw_offset]
    rw [pyTrunc_eq_floor (by norm_num [stAnchor])]
    exact Int.floor_eq_iff.mpr (by constructor <;> norm_num [stAnchor])
  have h2 : specRoundNearest (stAnchor.pos_rel.1 * ((1000 : ℕ) : ℚ) - (4 : ℚ) / 2) = 478 := by
    unfold specRoundNearest
    exact Int.floor_eq_iff.mpr (by constructor <;> norm_num [stAnchor])
  rw [h1, h2]
  decide

/-! ## Claim C5: output naming -/

theorem lastDotIdx_eq_none {cs : List Char} (h : '.' ∉ cs) : lastDotIdx cs = none := by
  induction cs with
  | nil => rfl
  | cons c rest ih =>
      have hc : c ≠ '.' := fun hh => h (hh ▸ List.mem_cons_self c rest)
      have hr : ('.' : Char) ∉ rest := fun hm => h (List.mem_cons_of_mem c hm)
      simp only [lastDotIdx, ih hr]
      rw [if_neg hc]

theorem pathSuffixLen_eq_zero {name : String} (h : '.' ∉ name.toList) :
    pathSuffixLen name = 0 := by
  simp only [pathSuffixLen]
  rw [lastDotIdx_eq_none h]

/-- With no dot in the name, `with_suffix` just appends the extension. -/
theorem withSuffix_no_dot (name suf : String) (h : '.' ∉ name.toList) :
    withSuffix name suf = name ++ suf := by
  unfold withSuffix
  rw [pathSuffixLen_eq_zero h]
  simp only [Nat.sub_zero, List.take_length]
  rfl

/-- Claim C5 (amended): `studio_app.py`'s `compute_out_name` is the naming
rule applied to the stem followed by the extension of the chosen output
format, for every stem; `studio.py`'s `_export_single` produces the same
shape whenever the transformed stem contains no dot — with a dotted stem
its `with_suffix` call drops everything after the last dot (see the
counterexample). -/
theorem c5_out_name_rule_and_format :
    (∀ (stem : String) (st : WatermarkSettings),
        compute_out_name stem st "PNG"
          = (if st.name_mode = "prefix" then st.name_prefix_str ++ stem
             else if st.name_mode = "suffix" then stem ++ st.name_suffix
             else stem) ++ ".png" ∧
        compute_out_name stem st "JPEG"
          = (if st.name_mode = "prefix" then st.name_prefix_str ++ stem
             else if st.name_mode = "suffix" then stem ++ st.name_suffix
             else stem) ++ ".jpg") ∧
    (∀ (e : ExportSettings) (stem : String),
        '.' ∉ (build_output_name e stem).toList →
        export_dest_name e stem
          = build_output_name e stem
              ++ (if pyUpper e.format = "PNG" then ".png" else ".jpg")) := by
  constructor
  · intro stem st
    constructor
    · simp only [compute_out_name]
      rw [if_pos (by decide : pyUpper "PNG" = "PNG")]
    · simp only [compute_out_name]
      rw [if_neg (by decide : ¬pyUpper "JPEG" = "PNG")]
  · intro e stem h
    unfold export_dest_name
    by_cases hf : pyUpper e.format = "PNG"
    · rw [if_pos hf, if_pos hf, withSuffix_no_dot _ _ h]
    · rw [if_neg hf, if_neg hf, withSuffix_no_dot _ _ h]

/-- Witness for C5: stem `photo`, prefix rule `wm_`, PNG gives
`wm_photo.png` in both pipelines. -/
theorem c5_witness :
    compute_out_name "photo" stPrefix "PNG" = "wm_photo.png" ∧
    export_dest_name ePrefixPng "photo" = "wm_photo.png" := by
  refine ⟨(c5_out_name_rule_and_format.1 "photo" stPrefix).1.trans (by decide), ?_⟩
  exact (c5_out_name_rule_and_format.2 ePrefixPng "photo" (by decide)).trans (by decide)

/-- Counterexample for C5 as stated: in `studio.py`, exporting a source
with stem `a.b` under the keep rule as PNG writes `a.png`, not
`a.b.png` — `with_suffix` replaces from the last dot of the stem. -/
theorem c5_counterexample :
    export_dest_name eKeepPng "a.b" = "a.png" ∧
    export_dest_name eKeepPng "a.b" ≠ build_output_name eKeepPng "a.b" ++ ".png" :=
  ⟨by decide, by decide⟩

/-! ## Claim C9: image-watermark target size -/

theorem pyTruncNat_eq (q : ℚ) (n : ℕ) (h1 : (n : ℚ) ≤ q) (h2 : q < n + 1) :
    pyTruncNat q = n := by
  have h0 : (0 : ℚ) ≤ q := le_trans (by positivity) h1
  unfold pyTruncNat
  rw [pyTrunc_eq_floor h0]
  have hfl : ⌊q⌋ = (n : ℤ) := Int.floor_eq_iff.mpr ⟨by push_cast; exact h1, by push_cast; linarith⟩
  rw [hfl]
  simp

/-- Claim C9 (amended): in `studio_app.py`, the size
`max(1, int(short_side * scale_percent/100))` is given to the watermark's
longer dimension — the target width equals it only when the watermark is at
least as wide as tall; for a portrait watermark the target height gets it
and the width follows the aspect.  In `studio.py`, the image watermark is
scaled to width `max(1, int(view_width * max(1, scale_percent)/100))`,
derived from the base width, not from its shorter side. -/
theorem c9_watermark_scale_target :
    (∀ (st : WatermarkSettings) (base wm : Image),
        wm.height ≤ wm.width →
        (wm_target_size st base wm).1
          = max 1 (pyTruncNat (((min base.width base.height : ℕ) : ℚ)
              * ((st.image_scale_pct : ℚ) / 100)))) ∧
    (∀ (st : WatermarkSettings) (base wm : Image),
        wm.width < wm.height →
        (wm_target_size st base wm).2
          = max 1 (pyTruncNat (((min base.width base.height : ℕ) : ℚ)
              * ((st.image_scale_pct : ℚ) / 100)))) ∧
    (∀ (env : Env) (icfg : ImageWatermark) (view_w : ℕ) (wm : Image),
        env.path_exists icfg.image_path = true →
        env.decode icfg.image_path = some wm →
        0 < wm.width → 0 < wm.height →
        (render_logo_layer env icfg view_w).map Image.width
          = some (max 1 (pyTrunc ((view_w : ℚ)
              * (((max 1 icfg.scale_percent : ℤ)) : ℚ) / 100))).toNat) := by
  refine ⟨?_, ?_, ?_⟩
  · intro st base wm h
    simp only [wm_target_size, wm_scale_px]
    rw [if_pos h]
  · intro st base wm h
    simp only [wm_target_size, wm_scale_px]
    rw [if_neg (by omega)]
  · intro env icfg view_w wm h1 h2 hw hh
    unfold render_logo_layer
    rw [h1]
    rw [if_neg (by decide : ¬(true = false))]
    rw [h2]
    dsimp only [Option.map]
    simp only [scaledToWidth]
    rw [if_neg (by push_neg; exact ⟨by omega, by omega, by omega⟩)]

/-- Witness for C9: default settings (scale 30) on a 200x100 base: a
landscape watermark gets target width 30, a portrait one target height
30; `studio.py` scales the 40x20 logo to width `int(200*30/100)=60`. -/
theorem c9_witness :
    (wm_target_size stDefault ⟨200, 100⟩ ⟨40, 20⟩).1 = 30 ∧
    (wm_target_size stDefault ⟨200, 100⟩ ⟨10, 20⟩).2 = 30 ∧
    (render_logo_layer envLogo icfgLogo 200).map Image.width = some 60 := by
  have e30 : max 1 (pyTruncNat (((min (Image.mk 200 100).width (Image.mk 200 100).height : ℕ) : ℚ)
      * ((stDefault.image_scale_pct : ℚ) / 100))) = 30 := by
    rw [show pyTruncNat (((min (Image.mk 200 100).width (Image.mk 200 100).height : ℕ) : ℚ)
        * ((stDefault.image_scale_pct : ℚ) / 100)) = 30 from
      pyTruncNat_eq _ _ (by norm_num [stDefault]) (by norm_num [stDefault])]
    decide
  refine ⟨?_, ?_, ?_⟩
  · exact (c9_watermark_scale_target.1 stDefault ⟨200, 100⟩ ⟨40, 20⟩ (by decide)).trans e30
  · exact (c9_watermark_scale_target.2.1 stDefault ⟨200, 100⟩ ⟨10, 20⟩ (by decide)).trans e30
  · refine (c9_watermark_scale_target.2.2 envLogo icfgLogo 200 ⟨40, 20⟩ rfl rfl (by decide)
      (by decide)).trans ?_
    rw [show pyTrunc (((200 : ℕ) : ℚ)
        * (((max 1 icfgLogo.scale_percent : ℤ)) : ℚ) / 100) = 60 by
      rw [pyTrunc_eq_floor (by norm_num [icfgLogo])]
      exact Int.floor_eq_iff.mpr (by constructor <;> norm_num [icfgLogo])]
    decide

/-- Counterexample for C9 as stated: with scale 30 on a 200x100 base
(shorter side 100, so the claimed target width is 30), a portrait 10x20
watermark gets target width `int(30 * (10/20)) = 15`, not 30 — the claimed
formula lands on the height instead. -/
theorem c9_counterexample :
    (wm_target_size stDefault ⟨200, 100⟩ ⟨10, 20⟩).1 = 15 ∧
    (wm_target_size stDefault ⟨200, 100⟩ ⟨10, 20⟩).1 ≠ 30 := by
  have h15 : (wm_target_size stDefault ⟨200, 100⟩ ⟨10, 20⟩).1 = 15 := by
    simp only [wm_target_size, wm_scale_px]
    rw [if_neg (by omega)]
    dsimp only
    rw [show pyTruncNat (((min (Image.mk 200 100).width (Image.mk 200 100).height : ℕ) : ℚ)
        * ((stDefault.image_scale_pct : ℚ) / 100)) = 30 from
      pyTruncNat_eq _ _ (by norm_num [stDefault]) (by norm_num [stDefault])]
    rw [show ((max 1 30 : ℕ) : ℚ) = 30 by norm_num]
    exact pyTruncNat_eq _ _ (by norm_num) (by norm_num)
  exact ⟨h15, by omega⟩

/-! ## Claims C7, C8: tolerant deserialization and round-trips -/

theorem objKeys_objSetIfKnown (o : Obj) (k : String) (v : PyVal) :
    objKeys (objSetIfKnown o k v) = objKeys o := by
  induction o with
  | nil => rfl
  | cons kd rest ih =>
      by_cases hk : kd.1 = k
      · simp only [objSetIfKnown]
        rw [if_pos hk]
        simp only [objKeys, List.map_cons]
        rw [hk]
      · simp only [objSetIfKnown]
        rw [if_neg hk]
        simp only [objKeys, List.map_cons] at ih ⊢
        rw [ih]

theorem objSetIfKnown_not_mem (o : Obj) (k : String) (v : PyVal) (h : k ∉ objKeys o) :
    objSetIfKnown o k v = o := by
  induction o with
  | nil => rfl
  | cons kd rest ih =>
      have hk : kd.1 ≠ k := by
        intro hh
        exact h (by rw [← hh]; exact List.mem_cons_self kd.1 _)
      simp only [objSetIfKnown]
      rw [if_neg hk, ih (fun hm => h (List.mem_cons_of_mem kd.1 hm))]

theorem objGet_objSetIfKnown_ne (o : Obj) (k k2 : String) (v : PyVal) (h : k2 ≠ k) :
    objGet (objSetIfKnown o k2 v) k = objGet o k := by
  induction o with
  | nil => rfl
  | cons kd rest ih =>
      by_cases hk : kd.1 = k2
      · simp only [objSetIfKnown]
        rw [if_pos hk]
        simp only [objGet]
        rw [if_neg h, if_neg (by rw [hk]; exact h)]
      · simp only [objSetIfKnown]
        rw [if_neg hk]
        simp only [objGet]
        by_cases hkk : kd.1 = k
        · rw [if_pos hkk, if_pos hkk]
        · rw [if_neg hkk, if_neg hkk]
          exact ih

theorem objKeys_foldl_set (d : Obj) :
    ∀ acc : Obj,
      objKeys (d.foldl (fun o kv => objSetIfKnown o kv.1 kv.2) acc) = objKeys acc := by
  induction d with
  | nil => intro acc; rfl
  | cons kv rest ih =>
      intro acc
      simp only [List.foldl_cons]
      rw [ih, objKeys_objSetIfKnown]

theorem objGet_foldl_set_not_mem (d : Obj) (k : String) (h : ∀ kv ∈ d, kv.1 ≠ k) :
    ∀ acc : Obj,
      objGet (d.foldl (fun o kv => objSetIfKnown o kv.1 kv.2) acc) k = objGet acc k := by
  induction d with
  | nil => intro acc; rfl
  | cons kv rest ih =>
      intro acc
      simp only [List.foldl_cons]
      rw [ih (fun x hx => h x (List.mem_cons_of_mem kv hx))]
      exact objGet_objSetIfKnown_ne acc k kv.1 kv.2 (h kv (List.mem_cons_self kv rest))

theorem foldl_set_cons (d : Obj) (k : String) (v : PyVal) :
    ∀ acc : Obj, (∀ kv ∈ d, kv.1 ≠ k) →
      d.foldl (fun o kv => objSetIfKnown o kv.1 kv.2) ((k, v) :: acc)
        = (k, v) :: d.foldl (fun o kv => objSetIfKnown o kv.1 kv.2) acc := by
  induction d with
  | nil => intro acc _; rfl
  | cons kv2 rest ih =>
      intro acc h
      simp only [List.foldl_cons]
      rw [show objSetIfKnown ((k, v) :: acc) kv2.1 kv2.2
            = (k, v) :: objSetIfKnown acc kv2.1 kv2.2 by
        simp only [objSetIfKnown]
        rw [if_neg (fun hh => (h kv2 (List.mem_cons_self kv2 rest)) hh.symm)]]
      exact ih _ (fun x hx => h x (List.mem_cons_of_mem kv2 hx))

theorem foldl_set_id (d : Obj) :
    ∀ acc : Obj, objKeys d = objKeys acc → (objKeys acc).Nodup →
      d.foldl (fun o kv => objSetIfKnown o kv.1 kv.2) acc = d := by
  induction d with
  | nil =>
      intro acc hkeys _
      have : acc = [] := by
        cases acc with
        | nil => rfl
        | cons a as => exact absurd hkeys.symm (by simp [objKeys])
      rw [this]
      rfl
  | cons kv rest ih =>
      intro acc hkeys hnd
      cases acc with
      | nil => exact absurd hkeys (by simp [objKeys])
      | cons a as =>
          have h1 : a.1 = kv.1 ∧ objKeys rest = objKeys as := by
            simp only [objKeys, List.map_cons] at hkeys
            exact ⟨(List.cons.injEq _ _ _ _ ▸ hkeys).1.symm,
                   (List.cons.injEq _ _ _ _ ▸ hkeys).2⟩
          have hnotin : a.1 ∉ objKeys as := by
            simp only [objKeys, List.map_cons, List.nodup_cons] at hnd
            exact hnd.1
          have hndas : (objKeys as).Nodup := by
            simp only [objKeys, List.map_cons, List.nodup_cons] at hnd
            exact hnd.2
          simp only [List.foldl_cons]
          rw [show objSetIfKnown (a :: as) kv.1 kv.2 = (kv.1, kv.2) :: as by
            simp only [objSetIfKnown]
            rw [if_pos h1.1]]
          rw [foldl_set_cons rest kv.1 kv.2 as (by
            intro x hx
            intro hh
            apply hnotin
            rw [h1.1, ← hh]
            exact (h1.2 ▸ List.mem_map_of_mem Prod.fst hx))]
          rw [ih as h1.2 hndas]

theorem objGet_eq_none (o : Obj) (k : String) (h : ∀ kv ∈ o, kv.1 ≠ k) :
    objGet o k = none := by
  induction o with
  | nil => rfl
  | cons kd rest ih =>
      simp only [objGet]
      rw [if_neg (h kd (List.mem_cons_self kd rest))]
      exact ih (fun x hx => h x (List.mem_cons_of_mem kd hx))

theorem objGet_initFields_not_mem (defaults kwargs : Obj) (k : String)
    (h : ∀ kv ∈ kwargs, kv.1 ≠ k) :
    objGet (initFields defaults kwargs) k = objGet defaults k := by
  induction defaults with
  | nil => rfl
  | cons kd rest ih =>
      simp only [initFields, List.map_cons, objGet]
      by_cases hk : kd.1 = k
      · rw [if_pos hk, if_pos hk]
        rw [hk, objGet_eq_none kwargs k h]
        rfl
      · rw [if_neg hk, if_neg hk]
        exact ih

/-- Claim C7 (amended): `studio_app.py`'s `from_dict` never fails — an
unknown field is ignored and an absent field keeps its construction
default; `studio.py`'s `from_json` defaults absent sections and absent
fields within a section, but an unknown field inside a section raises
`TypeError` and fails the load (see the counterexample). -/
theorem c7_tolerant_deserialization :
    (∀ (d : Obj) (k : String) (v : PyVal),
        k ∉ objKeys wsDefaults →
        ws_from_dict (d ++ [(k, v)]) = ws_from_dict d) ∧
    (∀ (d : Obj) (k : String),
        (∀ kv ∈ d, kv.1 ≠ k) →
        objGet (ws_from_dict d) k = objGet wsDefaults k) ∧
    from_json [] = .ok pyConfigDefault ∧
    (∀ (defaults kwargs : Obj) (k : String),
        (∀ kv ∈ kwargs, kv.1 ≠ k) →
        objGet (initFields defaults kwargs) k = objGet defaults k) := by
  refine ⟨?_, ?_, by decide, objGet_initFields_not_mem⟩
  · intro d k v h
    unfold ws_from_dict
    rw [List.foldl_append]
    simp only [List.foldl_cons, List.foldl_nil]
    exact objSetIfKnown_not_mem _ k v (by rw [objKeys_foldl_set]; exact h)
  · intro d k h
    unfold ws_from_dict
    exact objGet_foldl_set_not_mem d k h wsDefaults

/-- Witness for C7: a document carrying only `wm_type` plus an unknown
field loads; the unknown field is dropped and the absent `opacity` keeps
its default 70; an absent `bold` inside the text section keeps `False`. -/
theorem c7_witness :
    ws_from_dict ([("wm_type", .pystr "image")] ++ [("bogus", .pyint 1)])
      = ws_from_dict [("wm_type", .pystr "image")] ∧
    objGet (ws_from_dict [("wm_type", .pystr "image")]) "opacity" = some (.pyint 70) ∧
    objGet (initFields textDefaults [("text", .pystr "X")]) "bold"
      = some (.pybool false) := by
  refine ⟨c7_tolerant_deserialization.1 [("wm_type", .pystr "image")] "bogus" (.pyint 1)
      (by decide), ?_, ?_⟩
  · exact (c7_tolerant_deserialization.2.1 [("wm_type", .pystr "image")] "opacity"
      (by decide)).trans (by decide)
  · exact (c7_tolerant_deserialization.2.2.2 textDefaults [("text", .pystr "X")] "bold"
      (by decide)).trans (by decide)

/-- Counterexample for C7 as stated: a document whose `text` section holds
an unknown field makes `WatermarkConfig.from_json` raise `TypeError` — the
load fails. -/
theorem c7_counterexample :
    from_json [("text", [("bogus", .pyint 1)])]
      = .error "TypeError: unexpected keyword argument" := by
  decide

/-- Claim C8 (amended): `studio_app.py`'s in-memory `to_dict`/`from_dict`
round-trip is the identity on every settings object with the canonical
field set; `studio.py`'s `to_json`/`from_json` round-trip through JSON
text restores every scalar field but returns the RGBA tuples as lists
(element-wise equal), so the deserialized configuration is not
Python-equal to the original, for a populated instance of either kind. -/
theorem c8_serialization_roundtrip :
    (∀ st : Obj, objKeys st = objKeys wsDefaults → ws_from_dict (ws_to_dict st) = st) ∧
    from_json (docWire (to_json_doc cfgTextKind)) = .ok (wireConfig cfgTextKind) ∧
    wireConfig cfgTextKind ≠ cfgTextKind ∧
    from_json (docWire (to_json_doc cfgImageKind)) = .ok (wireConfig cfgImageKind) ∧
    wireConfig cfgImageKind ≠ cfgImageKind ∧
    objGet (wireConfig cfgTextKind).text "color_rgba"
      = some (.list4 (.pyint 255) (.pyint 255) (.pyint 255) (.pyint 200)) := by
  refine ⟨?_, by decide, by decide, by decide, by decide, by decide⟩
  intro st h
  unfold ws_from_dict ws_to_dict
  exact foldl_set_id st wsDefaults h (by decide)

/-- Witness for C8: the default-constructed settings object round-trips
through `to_dict`/`from_dict` unchanged. -/
theorem c8_witness : ws_from_dict (ws_to_dict wsDefaults) = wsDefaults :=
  c8_serialization_roundtrip.1 wsDefaults rfl

/-- Counterexample for C8 as stated: serializing the populated text-kind
configuration with `to_json` and deserializing the JSON with `from_json`
does not restore a configuration equal to the original — `color_rgba`
comes back as a list where the original holds a tuple. -/
theorem c8_counterexample :
    from_json (docWire (to_json_doc cfgTextKind)) ≠ .ok cfgTextKind := by
  intro h
  have he : from_json (docWire (to_json_doc cfgTextKind))
      = .ok (wireConfig cfgTextKind) := by decide
  rw [he] at h
  exact absurd (Except.ok.inj h) (by decide)

end Watermaker
